import Mathlib

set_option maxRecDepth 100000

/-!
Verification of the core of `src/lib/nsf-api.ts` (random-grant sampler and
citation parser) against its natural-language specification.

Modelling conventions:
* JavaScript numbers here are exact: `crypto.getRandomValues` on a
  `Uint32Array(1)` yields a word `u < 2^32`; `u / (0xffffffff + 1)` is the
  real number `u / 2^32` (exactly representable in binary64).  The products
  `(u / 2^32) * 1900001` and `(u / 2^32) * (totalCount - 1)` stay below
  `2^21`, so the binary64 rounding error is at most `2^-33`, strictly less
  than the distance (at least `2^-32`) from the exact value to the nearest
  integer whenever the exact value is not an integer; hence
  `Math.floor(u / 2^32 * m)` equals the natural-number division
  `u * m / 2^32`, which is how the draws are modelled below.
* Network effects are modelled with an explicit environment of response
  functions, and the requests a run issues are collected in a list, so that
  "no offset call is issued" is a statement about the request log.
-/

/-- One uniform 32-bit word mapped into the identifier range, from
`generateRandomAwardId`: `Math.floor(u / 2^32 * (2600000 - 700000 + 1)) + 700000`. -/
def randomAwardIdNum (u : Nat) : Nat :=
  u * (2600000 - 700000 + 1) / 4294967296 + 700000

/-- `generateRandomAwardId` formats the drawn number as the identifier string. -/
def generateRandomAwardId (u : Nat) : String :=
  toString (randomAwardIdNum u)

/-- The random offset drawn by `getRandomGrantByOffset`:
`Math.floor(u / 2^32 * (totalCount - 1))`. -/
def randomOffset (totalCount : Nat) (u : Nat) : Nat :=
  u * (totalCount - 1) / 4294967296

/-! ## Sampler: data model and the two strategies

`getRandomGrant` / `getRandomGrantByOffset` from `nsf-api.ts`.  The shape of
an award record matters to the control flow only through `abstractText`
(checked for JavaScript truthiness and for length > 100); the remaining
registry fields never influence the logic and are carried as the `id` and
`title` payload here.  `abstractText` is an `Option` because the runtime
check `award.abstractText && ...` guards against the field being absent. -/

structure NSFAward where
  id : String
  title : String
  abstractText : Option String
deriving DecidableEq, Repr

/-- Award status, the `"active" | "completed"` union in the source
(`"completed"` is the declared default). -/
inductive Status where
  | active
  | completed
deriving DecidableEq, Repr

/-- A request issued against the registry: lookup by identifier, the
single-result count query, or an offset-indexed query.  The count and
offset constructors record the effective filter parameters that the query
string carries. -/
inductive Request where
  | byId (id : String)
  | countQuery (amount : Option Int) (status : Status)
  | offsetQuery (amount : Option Int) (status : Status) (off : Nat)
deriving DecidableEq, Repr

/-- Is the request an identifier lookup? -/
def isByIdReq : Request → Bool
  | Request.byId _ => true
  | _ => false

/-- Is the request an offset-indexed query? -/
def isOffsetReq : Request → Bool
  | Request.offsetQuery _ _ _ => true
  | _ => false

/-- The filter parameters a request carries (`none` for identifier lookups,
which are unfiltered). -/
def requestFilter : Request → Option (Option Int × Status)
  | Request.byId _ => none
  | Request.countQuery a s => some (a, s)
  | Request.offsetQuery a s _ => some (a, s)

/-- The registry and network, as response functions.  A `none` response
models any failed interaction of that call (non-2xx status, network error,
JSON parse failure, or an empty `response.award` array), all of which the
source collapses into a `null`/thrown-and-caught outcome. -/
structure RegistryEnv where
  fetchAwardById : String → Option NSFAward
  totalCountFor : Option Int → Status → Option Nat
  awardAtOffset : Option Int → Status → Nat → Option NSFAward

/-- The effective `estimatedTotalAmtFrom` parameter: the source builds
`minAmount ? "&estimatedTotalAmtFrom=..." : ""`, so a present-but-zero
amount (falsy in JavaScript) adds no filter. -/
def amountFilterParam (minAmount : Option Int) : Option Int :=
  match minAmount with
  | some v => if v != 0 then some v else none
  | none => none

/-- The quality check of Strategy A:
`award.abstractText && award.abstractText.length > 100`. -/
def qualityOk (a : NSFAward) : Bool :=
  match a.abstractText with
  | some abs => (abs.length != 0) && decide (abs.length > 100)
  | none => false

/-- `getRandomGrantByOffset`: one count query, then (for a nonzero capped
count) one offset query at a crypto-uniform offset.  Returns the award (or
`none`) together with the list of registry requests issued. -/
def getRandomGrantByOffset (env : RegistryEnv) (uB : Nat)
    (minAmount : Option Int) (status : Status) : Option NSFAward × List Request :=
  let amt := amountFilterParam minAmount
  match env.totalCountFor amt status with
  | none => (none, [Request.countQuery amt status])
  | some reported =>
    let totalCount := min reported 3000
    if totalCount == 0 then
      (none, [Request.countQuery amt status])
    else
      let off := randomOffset totalCount uB
      (env.awardAtOffset amt status off,
        [Request.countQuery amt status, Request.offsetQuery amt status off])

/-- The `(minAmount && minAmount > 0) || status === "active"` dispatch
condition of `getRandomGrant`. -/
def filterPresent (minAmount : Option Int) (status : Status) : Bool :=
  (match minAmount with
   | some v => (v != 0) && decide (0 < v)
   | none => false) || (status == Status.active)

/-- The result of attempt `i` of Strategy A: fetch the identifier built
from the `i`-th random word and keep the award only if it passes the
quality check. -/
def attemptResult (env : RegistryEnv) (rands : Nat → Nat) (i : Nat) :
    Option NSFAward :=
  match env.fetchAwardById (generateRandomAwardId (rands i)) with
  | some a => if qualityOk a then some a else none
  | none => none

/-- Strategy A's retry loop: `remaining` iterations left, current attempt
index `attempt`.  Mirrors
`for (let attempt = 0; attempt < maxAttempts; attempt++)`. -/
def tryLoop (env : RegistryEnv) (rands : Nat → Nat) :
    Nat → Nat → Option NSFAward × List Request
  | _, 0 => (none, [])
  | attempt, r + 1 =>
    let id := generateRandomAwardId (rands attempt)
    match env.fetchAwardById id with
    | some a =>
      if qualityOk a then (some a, [Request.byId id])
      else
        let p := tryLoop env rands (attempt + 1) r
        (p.1, Request.byId id :: p.2)
    | none =>
      let p := tryLoop env rands (attempt + 1) r
      (p.1, Request.byId id :: p.2)

/-- `getRandomGrant`: dispatch to the offset method when a filter is
present, otherwise run Strategy A (20 attempts) with the offset method as
fallback. -/
def getRandomGrant (env : RegistryEnv) (rands : Nat → Nat) (uB : Nat)
    (minAmount : Option Int) (status : Status) : Option NSFAward × List Request :=
  if filterPresent minAmount status then
    getRandomGrantByOffset env uB minAmount status
  else
    let p := tryLoop env rands 0 20
    match p.1 with
    | some a => (some a, p.2)
    | none =>
      let q := getRandomGrantByOffset env uB minAmount status
      (q.1, p.2 ++ q.2)

/-! ## Citation parser: JavaScript string primitives

`parsePublications` works on JavaScript strings.  The model works on
`String`/`List Char`: `.length` counts characters (identical to the UTF-16
unit count on the Basic Multilingual Plane, which covers every string the
parser's heuristics single out), `trim`/`\s` use `Char.isWhitespace`
(identical to the JavaScript classes on ASCII), and the regular expressions
of the source are compiled by hand into the matchers below. -/

/-- JavaScript string truthiness: a string is truthy iff nonempty. -/
def jsTruthy (s : String) : Bool :=
  !(s.length == 0)

/-- `String.prototype.trim`: strip leading and trailing whitespace. -/
def jsTrim (s : String) : String :=
  (((s.toList.dropWhile Char.isWhitespace).reverse.dropWhile
      Char.isWhitespace).reverse).asString

/-- Substring search on character lists (for `String.prototype.includes`). -/
def isSubstrList (pat : List Char) : List Char → Bool
  | [] => pat.isEmpty
  | c :: cs => pat.isPrefixOf (c :: cs) || isSubstrList pat cs

/-- `s.includes(pat)`. -/
def strContains (s pat : String) : Bool :=
  isSubstrList pat.toList s.toList

/-- `pub.split("~")`, on character lists: accumulate the current field
(reversed) and cut at every tilde.  `"".split("~")` is `[""]`, and a
trailing tilde yields a trailing empty field, as in JavaScript. -/
def splitTildeAux : List Char → List Char → List (List Char)
  | [], acc => [acc.reverse]
  | c :: cs, acc =>
    if c = '~' then acc.reverse :: splitTildeAux cs []
    else splitTildeAux cs (c :: acc)

/-- `pub.split("~")`. -/
def jsSplitTilde (s : String) : List String :=
  (splitTildeAux s.toList []).map List.asString

/-- `/^\d{4}$/.test(s)`: exactly four digits. -/
def isFourDigit (s : String) : Bool :=
  match s.toList with
  | [a, b, c, d] => a.isDigit && b.isDigit && c.isDigit && d.isDigit
  | _ => false

/-- `/^\d+$/.test(s)`: nonempty and all digits. -/
def isAllDigits (s : String) : Bool :=
  !s.toList.isEmpty && s.toList.all Char.isDigit

/-- After the mandatory first digit of `/^10\.\d+\//`: further digits until
a slash. -/
def digitsSlash : List Char → Bool
  | [] => false
  | c :: cs => if c = '/' then true else if c.isDigit then digitsSlash cs else false

/-- `/^10\.\d+\//.test(s)` (anchored prefix match, rest unconstrained):
`"10."`, one or more digits, then a slash. -/
def doiPrefixMatch (s : String) : Bool :=
  match s.toList with
  | '1' :: '0' :: '.' :: c :: cs => c.isDigit && digitsSlash cs
  | _ => false

/-- The DOI-shaped-token test of the identifier scan:
`part.includes("doi.org") || part.match(/^10\.\d+\//)`. -/
def isDoiToken (part : String) : Bool :=
  strContains part "doi.org" || doiPrefixMatch part

/-- DOI normalization:
`part.includes("http") ? part : "https://doi.org/" + part`. -/
def normalizeDoi (part : String) : String :=
  if strContains part "http" then part else "https://doi.org/" ++ part

/-- `/^[A-Z][a-z]+/.test(s)`: an uppercase letter followed by at least one
lowercase letter. -/
def startsCapitalized (s : String) : Bool :=
  match s.toList with
  | c0 :: c1 :: _ =>
    (decide ('A' ≤ c0) && decide (c0 ≤ 'Z')) &&
    (decide ('a' ≤ c1) && decide (c1 ≤ 'z'))
  | _ => false

/-- `/^\d{4}-\d{2}-\d{2}/.test(s)`: a date-shaped prefix. -/
def isDateShaped (s : String) : Bool :=
  match s.toList with
  | a :: b :: c :: d :: e :: f :: g :: h :: i :: j :: _ =>
    a.isDigit && b.isDigit && c.isDigit && d.isDigit && (e == '-') &&
    f.isDigit && g.isDigit && (h == '-') && i.isDigit && j.isDigit
  | _ => false

/-- Does a maximal non-whitespace run contain an `@` that has at least one
run character on each side?  Exactly then does `\S+@\S+` match the run. -/
def tokenHasInnerAt (tok : List Char) : Bool :=
  ((tok.drop 1).dropLast).contains '@'

/-- State of the single pass implementing
`authors.replace(/\s+\S+@\S+/g, "")`: copying (before any whitespace run),
inside a whitespace run, or inside the non-whitespace token that follows a
whitespace run (both runs accumulated in reverse). -/
inductive EmailState where
  | copy
  | ws (acc : List Char)
  | tok (wsAcc tokAcc : List Char)

/-- One pass of `authors.replace(/\s+\S+@\S+/g, "")`.  A match of
`\s+\S+@\S+` is a maximal whitespace run followed by a maximal
non-whitespace run containing an inner `@` (greediness makes the match
swallow both runs whole), so the pass drops exactly those run pairs. -/
def emailGo : EmailState → List Char → List Char
  | EmailState.copy, [] => []
  | EmailState.copy, c :: cs =>
    if c.isWhitespace then emailGo (EmailState.ws [c]) cs
    else c :: emailGo EmailState.copy cs
  | EmailState.ws acc, [] => acc.reverse
  | EmailState.ws acc, c :: cs =>
    if c.isWhitespace then emailGo (EmailState.ws (c :: acc)) cs
    else emailGo (EmailState.tok acc [c]) cs
  | EmailState.tok wsAcc tokAcc, [] =>
    if tokenHasInnerAt tokAcc.reverse then []
    else wsAcc.reverse ++ tokAcc.reverse
  | EmailState.tok wsAcc tokAcc, c :: cs =>
    if c.isWhitespace then
      (if tokenHasInnerAt tokAcc.reverse then []
       else wsAcc.reverse ++ tokAcc.reverse) ++ emailGo (EmailState.ws [c]) cs
    else emailGo (EmailState.tok wsAcc (c :: tokAcc)) cs

/-- `authors.replace(/\s+\S+@\S+/g, "")`. -/
def emailStrip (s : String) : String :=
  (emailGo EmailState.copy s.toList).asString

/-- The parsed record (`Publication` in `types/nsf.ts`); the parser always
produces all five fields, with `""` for an absent value. -/
structure Publication where
  year : String
  authors : String
  title : String
  doi : String
  journal : String
deriving DecidableEq, Repr

/-! ## Citation parser: the three index loops

Each `for` loop of the source is modelled twice: a total version (`...T`)
driven by a fuel argument that is always called with enough fuel to cover
the loop bound (`parts[i]` read through the optional index `parts[i]?`,
whose `none` doubles as the loop's exit test), and a strict version
(`...S`) whose outer `none` models a thrown `TypeError` — it is produced
exactly when the loop body would call a method on an `undefined` element,
which the bounds check of the `for` condition makes impossible. -/

/-- DOI scan (total): first index whose trimmed token is DOI-shaped,
together with that trimmed token. -/
def doiLoopT (parts : List String) : Nat → Nat → Option (Nat × String)
  | _, 0 => none
  | i, fuel + 1 =>
    match parts[i]? with
    | none => none
    | some p =>
      let part := jsTrim p
      if isDoiToken part then some (i, part) else doiLoopT parts (i + 1) fuel

/-- DOI scan (strict): `for (let i = 0; i < parts.length; i++)` with the
element access modelled as fallible. -/
def doiLoopS (parts : List String) (i : Nat) : Option (Option (Nat × String)) :=
  if i < parts.length then
    match parts[i]? with
    | none => none
    | some p =>
      let part := jsTrim p
      if isDoiToken part then some (some (i, part)) else doiLoopS parts (i + 1)
  else some none
termination_by parts.length - i
decreasing_by omega

/-- Year scan (total): first index `i < min(parts.length, 4)` whose trimmed
token is a 4-digit year, with that trimmed token. -/
def yearLoopT (parts : List String) : Nat → Nat → Option (Nat × String)
  | _, 0 => none
  | i, fuel + 1 =>
    if i < 4 then
      match parts[i]? with
      | none => none
      | some p =>
        if isFourDigit (jsTrim p) then some (i, jsTrim p)
        else yearLoopT parts (i + 1) fuel
    else none

/-- Year scan (strict): `for (let i = 0; i < Math.min(parts.length, 4); i++)`. -/
def yearLoopS (parts : List String) (i : Nat) : Option (Option (Nat × String)) :=
  if i < min parts.length 4 then
    match parts[i]? with
    | none => none
    | some p =>
      if isFourDigit (jsTrim p) then some (some (i, jsTrim p))
      else yearLoopS parts (i + 1)
  else some none
termination_by 4 - i
decreasing_by omega

/-- Acceptance test of the journal-first title scan: longer than 15
characters, not DOI-shaped, not purely numeric, no `"OSTI"` sentinel. -/
def titleCandidateOk (p : String) : Bool :=
  decide (p.length > 15) && !(strContains p "doi.org") && !(doiPrefixMatch p) &&
  !(isAllDigits p) && !(strContains p "OSTI")

/-- Journal-first title scan (total): first acceptable trimmed token at or
after the start index; `""` when none is found (the variable keeps its
initial value in the source). -/
def titleLoopT (parts : List String) : Nat → Nat → String
  | _, 0 => ""
  | i, fuel + 1 =>
    match parts[i]? with
    | none => ""
    | some p =>
      let q := jsTrim p
      if titleCandidateOk q then q else titleLoopT parts (i + 1) fuel

/-- Journal-first title scan (strict):
`for (let i = start; i < parts.length; i++)`. -/
def titleLoopS (parts : List String) (i : Nat) : Option String :=
  if i < parts.length then
    match parts[i]? with
    | none => none
    | some p =>
      let q := jsTrim p
      if titleCandidateOk q then some q else titleLoopS parts (i + 1)
  else some ""
termination_by parts.length - i
decreasing_by omega

/-! ## Citation parser: field extraction -/

/-- Year-first format, `authors = parts[1].trim()` under the truthiness
guard `if (parts[1])`. -/
def yearFirstAuthors (parts : List String) : String :=
  match parts[1]? with
  | some p1 => if jsTruthy p1 then jsTrim p1 else ""
  | none => ""

/-- Year-first format, last fallback of the title chain:
`else if (parts[2] && !parts[2].includes("doi")) title = parts[2].trim()`. -/
def titleFromPart2 (parts : List String) : String :=
  match parts[2]? with
  | some p2 =>
    if jsTruthy p2 && !(strContains p2 "doi") then jsTrim p2 else ""
  | none => ""

/-- Year-first format, middle of the title chain:
`else if (parts[3]) title = parts[3].trim()`. -/
def titleFromPart3 (parts : List String) : String :=
  match parts[3]? with
  | some p3 => if jsTruthy p3 then jsTrim p3 else titleFromPart2 parts
  | none => titleFromPart2 parts

/-- Year-first format title:
`if (doiIndex >= 0 && parts[doiIndex + 1]) title = parts[doiIndex+1].trim()`
with the two fallbacks above. -/
def yearFirstTitle (parts : List String) (doiRes : Option (Nat × String)) :
    String :=
  match doiRes with
  | some (di, _) =>
    match parts[di + 1]? with
    | some pd => if jsTruthy pd then jsTrim pd else titleFromPart3 parts
    | none => titleFromPart3 parts
  | none => titleFromPart3 parts

/-- Journal-first format: `(authors, title)` from the token after the year,
recognising a purely numeric volume token, with the forward title scan
(total version). -/
def journalFirstFields (parts : List String) (yearRes : Option (Nat × String)) :
    String × String :=
  match yearRes with
  | some (yi, _) =>
    (match parts[yi + 1]? with
     | some py1 =>
       if jsTruthy py1 then
         let afterYear := jsTrim py1
         if isAllDigits afterYear then
           match parts[yi + 2]? with
           | some py2 =>
             if jsTruthy py2 then
               (jsTrim py2, titleLoopT parts (yi + 3) parts.length)
             else (afterYear, titleLoopT parts (yi + 2) parts.length)
           | none => (afterYear, titleLoopT parts (yi + 2) parts.length)
         else (afterYear, titleLoopT parts (yi + 2) parts.length)
       else ("", "")
     | none => ("", ""))
  | none => ("", "")

/-- Journal-first format, strict version of `journalFirstFields` (the title
scans are the fallible loop). -/
def journalFirstFieldsS (parts : List String) (yearRes : Option (Nat × String)) :
    Option (String × String) :=
  match yearRes with
  | some (yi, _) =>
    (match parts[yi + 1]? with
     | some py1 =>
       if jsTruthy py1 then
         let afterYear := jsTrim py1
         if isAllDigits afterYear then
           match parts[yi + 2]? with
           | some py2 =>
             if jsTruthy py2 then
               (titleLoopS parts (yi + 3)).map (fun t => (jsTrim py2, t))
             else (titleLoopS parts (yi + 2)).map (fun t => (afterYear, t))
           | none => (titleLoopS parts (yi + 2)).map (fun t => (afterYear, t))
         else (titleLoopS parts (yi + 2)).map (fun t => (afterYear, t))
       else some ("", "")
     | none => some ("", ""))
  | none => some ("", "")

/-- Swap correction (step between extraction and title rejection): swap a
short author-looking title with a long title-looking authors string. -/
def swapStep (title authors : String) : String × String :=
  if jsTruthy title && decide (title.length < 80) &&
      strContains title " and " && startsCapitalized title then
    if jsTruthy authors && decide (authors.length > 50) &&
        !(strContains authors " and ") then
      (authors, title)
    else (title, authors)
  else (title, authors)

/-- Title rejection: blank a truthy title that is purely numeric, a
sentinel (`"N"`, `"OSTI"`), shorter than 10 characters, or date-shaped. -/
def titleReject (title : String) : String :=
  if jsTruthy title &&
      (isAllDigits title || title == "N" || title == "OSTI" ||
        decide (title.length < 10) || isDateShaped title) then ""
  else title

/-- Author cleanup: strip email-shaped substrings, then trim. -/
def authorsClean (authors : String) : String :=
  if jsTruthy authors then jsTrim (emailStrip authors) else authors

/-- One `map` body of `parsePublications` (total model). -/
def parseOne (pub : String) : Publication :=
  let parts := jsSplitTilde pub
  let doiRes := doiLoopT parts 0 parts.length
  let yearRes := yearLoopT parts 0 4
  let doi := match doiRes with
    | some (_, part) => normalizeDoi part
    | none => ""
  let firstPart := jsTrim (parts[0]?.getD "")
  let isYearFirst := isFourDigit firstPart
  let year := if isYearFirst then firstPart
    else match yearRes with
      | some (_, y) => y
      | none => ""
  let journal := if isYearFirst then "" else firstPart
  let pair := if isYearFirst then
      (yearFirstAuthors parts, yearFirstTitle parts doiRes)
    else journalFirstFields parts yearRes
  let swapped := swapStep pair.2 pair.1
  Publication.mk year (authorsClean swapped.2) (titleReject swapped.1) doi journal

/-- One `map` body of `parsePublications`, strict model: `none` exactly
where the JavaScript would throw. -/
def parseOneStrict (pub : String) : Option Publication :=
  let parts := jsSplitTilde pub
  match doiLoopS parts 0 with
  | none => none
  | some doiRes =>
    match yearLoopS parts 0 with
    | none => none
    | some yearRes =>
      let doi := match doiRes with
        | some (_, part) => normalizeDoi part
        | none => ""
      let firstPart := jsTrim (parts[0]?.getD "")
      let isYearFirst := isFourDigit firstPart
      let year := if isYearFirst then firstPart
        else match yearRes with
          | some (_, y) => y
          | none => ""
      let journal := if isYearFirst then "" else firstPart
      let pairS := if isYearFirst then
          some (yearFirstAuthors parts, yearFirstTitle parts doiRes)
        else journalFirstFieldsS parts yearRes
      match pairS with
      | none => none
      | some pair =>
        let swapped := swapStep pair.2 pair.1
        some (Publication.mk year (authorsClean swapped.2)
          (titleReject swapped.1) doi journal)

/-- The caller-level acceptance gate:
`.filter(pub => pub.title && pub.title.length > 10)`. -/
def publicationGate (p : Publication) : Bool :=
  jsTruthy p.title && decide (p.title.length > 10)

/-- `parsePublications` (total model): map then filter. -/
def parsePublications (publicationStrings : List String) : List Publication :=
  (publicationStrings.map parseOne).filter publicationGate

/-- Error-propagating map: a thrown error inside the `map` callback
propagates out of the whole call, short-circuiting the rest. -/
def mapStrict (f : String → Option Publication) :
    List String → Option (List Publication)
  | [] => some []
  | x :: xs =>
    match f x with
    | none => none
    | some y =>
      match mapStrict f xs with
      | none => none
      | some ys => some (y :: ys)

/-- `parsePublications`, strict model: a thrown error anywhere inside the
`map` would propagate out of the whole call. -/
def parsePublicationsStrict (publicationStrings : List String) :
    Option (List Publication) :=
  (mapStrict parseOneStrict publicationStrings).map
    (fun ps => ps.filter publicationGate)

/-! ## Concrete environments used by the witnesses and counterexamples -/

/-- An award whose abstract is comfortably longer than 100 characters. -/
def awardLong : NSFAward :=
  NSFAward.mk "1000001" "Quantum Widgets"
    (some ("This award supports a detailed investigation of the structural " ++
      "properties of widely deployed scientific software systems."))

/-- A distinct award, served by the offset endpoint. -/
def awardOther : NSFAward :=
  NSFAward.mk "2000002" "Other Project" (some "Short abstract.")

/-- A registry where every identifier lookup hits `awardLong` and the
offset endpoint serves `awardOther`. -/
def envGuess : RegistryEnv :=
  RegistryEnv.mk (fun _ => some awardLong) (fun _ _ => some 5)
    (fun _ _ _ => some awardOther)

/-- A registry whose count query always reports zero matches. -/
def envZero : RegistryEnv :=
  RegistryEnv.mk (fun _ => none) (fun _ _ => some 0) (fun _ _ _ => none)

/-- A registry where every identifier lookup misses. -/
def envMiss : RegistryEnv :=
  RegistryEnv.mk (fun _ => none) (fun _ _ => some 100)
    (fun _ _ _ => some awardOther)

/-- A degenerate random stream. -/
def randsZero : Nat → Nat := fun _ => 0

/-! # Theorems -/

/-! ## Shared arithmetic facts about the two crypto-uniform draws -/

theorem randomAwardIdNum_range (u : Nat) (hu : u < 4294967296) :
    700000 ≤ randomAwardIdNum u ∧ randomAwardIdNum u ≤ 2600000 := by
  unfold randomAwardIdNum
  omega

theorem randomAwardIdNum_surjective (k : Nat)
    (hlo : 700000 ≤ k) (hhi : k ≤ 2600000) :
    ∃ u, u < 4294967296 ∧ randomAwardIdNum u = k := by
  refine ⟨((k - 700000) * 4294967296 + 1900000) / 1900001, ?_, ?_⟩
  · omega
  · unfold randomAwardIdNum
    omega

theorem randomOffset_le_sub_two (N u : Nat) (hN : 2 ≤ N) (hu : u < 4294967296) :
    randomOffset N u ≤ N - 2 := by
  unfold randomOffset
  have h1 : u * (N - 1) ≤ 4294967295 * (N - 1) :=
    Nat.mul_le_mul_right (N - 1) (by omega)
  omega

theorem randomOffset_le_sub_one (N u : Nat) (hN : 1 ≤ N) (hu : u < 4294967296) :
    randomOffset N u ≤ N - 1 := by
  rcases Nat.lt_or_ge N 2 with h | h
  · have hN1 : N = 1 := by omega
    subst hN1
    unfold randomOffset
    omega
  · have := randomOffset_le_sub_two N u h hu
    omega

theorem randomOffset_surjective_below (N k : Nat) (hN : 2 ≤ N)
    (hcap : N ≤ 3000) (hk : k ≤ N - 2) :
    ∃ u, u < 4294967296 ∧ randomOffset N u = k := by
  refine ⟨(k * 4294967296 + (N - 2)) / (N - 1), ?_, ?_⟩
  · have h1 := Nat.div_add_mod (k * 4294967296 + (N - 2)) (N - 1)
    have h2 : (k * 4294967296 + (N - 2)) % (N - 1) < N - 1 :=
      Nat.mod_lt _ (by omega)
    -- bound the product through the atom `(N - 1) * q`
    have h3 : (N - 1) * ((k * 4294967296 + (N - 2)) / (N - 1)) <
        (N - 1) * 4294967296 := by omega
    exact Nat.lt_of_mul_lt_mul_left h3
  · unfold randomOffset
    have h1 := Nat.div_add_mod (k * 4294967296 + (N - 2)) (N - 1)
    have h2 : (k * 4294967296 + (N - 2)) % (N - 1) < N - 1 :=
      Nat.mod_lt _ (by omega)
    have h3 : ((k * 4294967296 + (N - 2)) / (N - 1)) * (N - 1) =
        (N - 1) * ((k * 4294967296 + (N - 2)) / (N - 1)) := Nat.mul_comm _ _
    rw [h3]
    omega

/-! ## C1 -/

/-- C1, counterexample: the claim asserts every value of `[0, N-1]` is
attainable by Strategy B's offset draw, but for the filtered count `N = 2`
no 32-bit word ever produces the offset `1`
(`Math.floor(u / 2^32 * 1)` is `0` for every `u < 2^32`). -/
theorem c1_offset_top_unattainable :
    ¬ ∃ u, u < 4294967296 ∧ randomOffset 2 u = 1 := by
  rintro ⟨u, hu, h⟩
  unfold randomOffset at h
  omega

/-- C1 (amended): every integer drawn via the uniform-mapping technique
lands in the stated target range: Strategy A's identifier draw lies in
`[700000, 2600000]` and every value of that range is attainable; Strategy
B's offset draw, for every filtered count `N ≥ 1` after the registry cap,
lies in `[0, N-1]`, and every value of `[0, N-2]` is attainable — but the
endpoint `N-1` itself is never produced when `N ≥ 2` (the draw scales by
`N-1` instead of `N`). -/
theorem c1_uniform_draw_amended :
    (∀ u, u < 4294967296 →
      700000 ≤ randomAwardIdNum u ∧ randomAwardIdNum u ≤ 2600000)
    ∧ (∀ k, 700000 ≤ k → k ≤ 2600000 →
        ∃ u, u < 4294967296 ∧ randomAwardIdNum u = k)
    ∧ (∀ N u, 1 ≤ N → N ≤ 3000 → u < 4294967296 → randomOffset N u ≤ N - 1)
    ∧ (∀ N u, 2 ≤ N → N ≤ 3000 → u < 4294967296 → randomOffset N u ≤ N - 2)
    ∧ (∀ N k, 2 ≤ N → N ≤ 3000 → k ≤ N - 2 →
        ∃ u, u < 4294967296 ∧ randomOffset N u = k) := by
  refine ⟨randomAwardIdNum_range, randomAwardIdNum_surjective, ?_, ?_, ?_⟩
  · intro N u h1 _ hu
    exact randomOffset_le_sub_one N u h1 hu
  · intro N u h2 _ hu
    exact randomOffset_le_sub_two N u h2 hu
  · intro N k h2 hcap hk
    exact randomOffset_surjective_below N k h2 hcap hk

/-- C1, witness: the amended theorem applied at concrete draws and range
values. -/
theorem c1_uniform_draw_amended_witness :
    (700000 ≤ randomAwardIdNum 12345 ∧ randomAwardIdNum 12345 ≤ 2600000)
    ∧ (∃ u, u < 4294967296 ∧ randomAwardIdNum u = 2600000)
    ∧ randomOffset 10 4294967295 ≤ 9
    ∧ randomOffset 10 4294967295 ≤ 8
    ∧ (∃ u, u < 4294967296 ∧ randomOffset 10 u = 8) :=
  ⟨c1_uniform_draw_amended.1 12345 (by decide),
   c1_uniform_draw_amended.2.1 2600000 (by decide) (by decide),
   c1_uniform_draw_amended.2.2.1 10 4294967295 (by decide) (by decide) (by decide),
   c1_uniform_draw_amended.2.2.2.1 10 4294967295 (by decide) (by decide) (by decide),
   c1_uniform_draw_amended.2.2.2.2 10 8 (by decide) (by decide) (by decide)⟩

/-- The request log of the offset method: the count query alone, or the
count query followed by one offset query, both carrying the effective
filter. -/
theorem getRandomGrantByOffset_log (env : RegistryEnv) (uB : Nat)
    (m : Option Int) (s : Status) :
    (getRandomGrantByOffset env uB m s).2 =
      [Request.countQuery (amountFilterParam m) s]
    ∨ ∃ off, (getRandomGrantByOffset env uB m s).2 =
        [Request.countQuery (amountFilterParam m) s,
         Request.offsetQuery (amountFilterParam m) s off] := by
  simp only [getRandomGrantByOffset]
  cases env.totalCountFor (amountFilterParam m) s with
  | none => left; rfl
  | some reported =>
    simp only []
    split
    · left; rfl
    · right; exact ⟨_, rfl⟩

/-! ## C2 -/

/-- C2, counterexample: a request with no minimum amount and the status
restriction `"completed"` is, per the claim, supposed to be served by the
offset method — but the code's dispatch treats only `"active"` as a status
filter, so the record is selected by unfiltered identifier guessing: in a
registry where identifier lookups hit `awardLong` and the offset endpoint
serves `awardOther`, the run issues one identifier lookup and returns
`awardLong`, not the offset method's result. -/
theorem c2_completed_uses_id_guessing :
    getRandomGrant envGuess randsZero 0 none Status.completed =
      (some awardLong, [Request.byId "700000"])
    ∧ getRandomGrant envGuess randsZero 0 none Status.completed ≠
        getRandomGrantByOffset envGuess 0 none Status.completed := by
  constructor
  · rfl
  · decide

/-- C2 (amended): `getRandomGrant` uses Strategy B exactly when the request
carries a positive minimum amount or the status `"active"`; such requests
are answered by the offset method with the request's filter on every issued
query and never by identifier guessing, while a request with the default
status `"completed"` and no positive amount runs Strategy A (identifier
guessing, with the offset method only as fallback). -/
theorem c2_dispatch_amended (env : RegistryEnv) (rands : Nat → Nat) (uB : Nat)
    (m : Option Int) (s : Status) :
    (filterPresent m s = true ↔ ((∃ v, m = some v ∧ 0 < v) ∨ s = Status.active))
    ∧ (filterPresent m s = true →
        getRandomGrant env rands uB m s = getRandomGrantByOffset env uB m s
        ∧ ∀ r ∈ (getRandomGrant env rands uB m s).2,
            isByIdReq r = false ∧ requestFilter r = some (amountFilterParam m, s))
    ∧ (filterPresent m s = false →
        getRandomGrant env rands uB m s =
          (match (tryLoop env rands 0 20).1 with
           | some a => (some a, (tryLoop env rands 0 20).2)
           | none =>
             ((getRandomGrantByOffset env uB m s).1,
               (tryLoop env rands 0 20).2 ++ (getRandomGrantByOffset env uB m s).2))) := by
  refine ⟨?_, ?_, ?_⟩
  · cases s with
    | active => cases m <;> simp [filterPresent]
    | completed =>
      cases m with
      | none => simp [filterPresent]
      | some v =>
        simp [filterPresent]
        omega
  · intro h
    have he : getRandomGrant env rands uB m s = getRandomGrantByOffset env uB m s := by
      unfold getRandomGrant
      rw [h]
      simp
    refine ⟨he, ?_⟩
    rw [he]
    rcases getRandomGrantByOffset_log env uB m s with hl | ⟨off, hl⟩
    · rw [hl]; simp [isByIdReq, requestFilter]
    · rw [hl]; simp [isByIdReq, requestFilter]
  · intro h
    unfold getRandomGrant
    rw [h]
    simp

/-- C2, witness: the amended dispatch applied to a request with a positive
minimum amount, and to an active-status request. -/
theorem c2_dispatch_amended_witness :
    getRandomGrant envGuess randsZero 0 (some 5) Status.completed =
      getRandomGrantByOffset envGuess 0 (some 5) Status.completed
    ∧ getRandomGrant envGuess randsZero 0 none Status.active =
        getRandomGrantByOffset envGuess 0 none Status.active :=
  ⟨((c2_dispatch_amended envGuess randsZero 0 (some 5) Status.completed).2.1
      (by decide)).1,
   ((c2_dispatch_amended envGuess randsZero 0 none Status.active).2.1
      (by decide)).1⟩

/-! ## C3 -/

/-- C3: whenever the count query reports `totalCount = 0`, Strategy B
returns `NotFound` (`none`) and the request log is the count query alone —
no offset-indexed lookup is issued. -/
theorem c3_zero_count_no_offset_call (env : RegistryEnv) (uB : Nat)
    (m : Option Int) (s : Status)
    (h : env.totalCountFor (amountFilterParam m) s = some 0) :
    getRandomGrantByOffset env uB m s =
      (none, [Request.countQuery (amountFilterParam m) s])
    ∧ ∀ r ∈ (getRandomGrantByOffset env uB m s).2, isOffsetReq r = false := by
  have he : getRandomGrantByOffset env uB m s =
      (none, [Request.countQuery (amountFilterParam m) s]) := by
    simp only [getRandomGrantByOffset, h]
    simp
  refine ⟨he, ?_⟩
  rw [he]
  simp [isOffsetReq]

/-- C3, witness: the zero-count behaviour on a registry that reports an
empty subpopulation. -/
theorem c3_zero_count_no_offset_call_witness :
    getRandomGrantByOffset envZero 0 none Status.completed =
      (none, [Request.countQuery none Status.completed]) :=
  (c3_zero_count_no_offset_call envZero 0 none Status.completed rfl).1

/-! ## C4: lemmas about Strategy A's retry loop -/

/-- Unfolding one iteration of the retry loop through `attemptResult`. -/
theorem tryLoop_succ_eq (env : RegistryEnv) (rands : Nat → Nat)
    (attempt r : Nat) :
    tryLoop env rands attempt (r + 1) =
      match attemptResult env rands attempt with
      | some a => (some a, [Request.byId (generateRandomAwardId (rands attempt))])
      | none =>
        ((tryLoop env rands (attempt + 1) r).1,
          Request.byId (generateRandomAwardId (rands attempt)) ::
            (tryLoop env rands (attempt + 1) r).2) := by
  simp only [tryLoop, attemptResult]
  cases env.fetchAwardById (generateRandomAwardId (rands attempt)) with
  | none => rfl
  | some a =>
    by_cases hq : qualityOk a
    · simp [hq]
    · simp [hq]

/-- The retry loop issues at most `r` identifier lookups. -/
theorem tryLoop_log_len (env : RegistryEnv) (rands : Nat → Nat) :
    ∀ r attempt, (tryLoop env rands attempt r).2.length ≤ r := by
  intro r
  induction r with
  | zero => intro attempt; simp [tryLoop]
  | succ n ih =>
    intro attempt
    rw [tryLoop_succ_eq]
    cases attemptResult env rands attempt with
    | some a => simp
    | none =>
      simp only [List.length_cons]
      exact Nat.succ_le_succ (ih (attempt + 1))

/-- Every request the retry loop issues is an identifier lookup. -/
theorem tryLoop_log_filter (env : RegistryEnv) (rands : Nat → Nat) :
    ∀ r attempt,
      (tryLoop env rands attempt r).2.filter isByIdReq =
        (tryLoop env rands attempt r).2 := by
  intro r
  induction r with
  | zero => intro attempt; simp [tryLoop]
  | succ n ih =>
    intro attempt
    rw [tryLoop_succ_eq]
    cases attemptResult env rands attempt with
    | some a => simp [isByIdReq]
    | none => simp [isByIdReq, ih (attempt + 1)]

/-- The first quality-passing attempt within the budget determines the
loop's result. -/
theorem tryLoop_first_hit (env : RegistryEnv) (rands : Nat → Nat) :
    ∀ r i attempt a, i < r →
      (∀ j, j < i → attemptResult env rands (attempt + j) = none) →
      attemptResult env rands (attempt + i) = some a →
      (tryLoop env rands attempt r).1 = some a := by
  intro r
  induction r with
  | zero => intro i attempt a hi; exact absurd hi (by omega)
  | succ n ih =>
    intro i attempt a hi hnone hsome
    rw [tryLoop_succ_eq]
    cases i with
    | zero =>
      have h : attemptResult env rands attempt = some a := by simpa using hsome
      rw [h]
    | succ i' =>
      have h0 : attemptResult env rands attempt = none := by
        simpa using hnone 0 (by omega)
      rw [h0]
      simp only []
      refine ih i' (attempt + 1) a (by omega) ?_ ?_
      · intro j hj
        have := hnone (j + 1) (by omega)
        have e : attempt + (j + 1) = attempt + 1 + j := by omega
        rw [e] at this
        exact this
      · have e : attempt + (i' + 1) = attempt + 1 + i' := by omega
        rw [e] at hsome
        exact hsome

/-- When every attempt in the budget misses, the loop returns no award and
its log is exactly the `r` identifier lookups in order. -/
theorem tryLoop_all_miss (env : RegistryEnv) (rands : Nat → Nat) :
    ∀ r attempt,
      (∀ i, i < r → attemptResult env rands (attempt + i) = none) →
      tryLoop env rands attempt r =
        (none, (List.range r).map
          (fun i => Request.byId (generateRandomAwardId (rands (attempt + i))))) := by
  intro r
  induction r with
  | zero => intro attempt h; simp [tryLoop]
  | succ n ih =>
    intro attempt h
    rw [tryLoop_succ_eq]
    have h0 : attemptResult env rands attempt = none := by
      simpa using h 0 (by omega)
    rw [h0]
    have hrec := ih (attempt + 1) (fun i hi => by
      have hx := h (i + 1) (by omega)
      have e : attempt + (i + 1) = attempt + 1 + i := by omega
      rw [e] at hx
      exact hx)
    rw [hrec]
    have hf : (fun i => Request.byId (generateRandomAwardId (rands (attempt + 1 + i)))) =
        (fun i => Request.byId (generateRandomAwardId (rands (attempt + (i + 1))))) := by
      funext i
      have e : attempt + 1 + i = attempt + (i + 1) := by omega
      rw [e]
    simp [List.range_succ_eq_map, List.map_map, Function.comp_def, hf]

/-- No request the offset method issues is an identifier lookup. -/
theorem offsetLog_no_byId (env : RegistryEnv) (uB : Nat)
    (m : Option Int) (s : Status) :
    (getRandomGrantByOffset env uB m s).2.filter isByIdReq = [] := by
  rcases getRandomGrantByOffset_log env uB m s with hl | ⟨off, hl⟩
  · rw [hl]; simp [isByIdReq]
  · rw [hl]; simp [isByIdReq]

/-- C4: for every registry behaviour, an unfiltered request makes at most
20 identifier lookups; the first attempt whose award passes the
abstract-length quality check is returned, and if all 20 attempts miss the
call falls back to the offset method (the loop terminates by
construction — it is a bounded iteration). -/
theorem c4_strategyA_budget (env : RegistryEnv) (rands : Nat → Nat) (uB : Nat)
    (m : Option Int) (s : Status) (hf : filterPresent m s = false) :
    ((getRandomGrant env rands uB m s).2.filter isByIdReq).length ≤ 20
    ∧ (∀ i a, i < 20 →
        (∀ j, j < i → attemptResult env rands j = none) →
        attemptResult env rands i = some a →
        (getRandomGrant env rands uB m s).1 = some a)
    ∧ ((∀ i, i < 20 → attemptResult env rands i = none) →
        getRandomGrant env rands uB m s =
          ((getRandomGrantByOffset env uB m s).1,
            (List.range 20).map
              (fun i => Request.byId (generateRandomAwardId (rands i)))
            ++ (getRandomGrantByOffset env uB m s).2)) := by
  have hdisp : getRandomGrant env rands uB m s =
      (match (tryLoop env rands 0 20).1 with
       | some a => (some a, (tryLoop env rands 0 20).2)
       | none =>
         ((getRandomGrantByOffset env uB m s).1,
           (tryLoop env rands 0 20).2 ++ (getRandomGrantByOffset env uB m s).2)) := by
    unfold getRandomGrant
    rw [hf]
    simp
  refine ⟨?_, ?_, ?_⟩
  · rw [hdisp]
    cases h1 : (tryLoop env rands 0 20).1 with
    | some a =>
      simp only []
      rw [tryLoop_log_filter]
      exact tryLoop_log_len env rands 20 0
    | none =>
      simp only [List.filter_append, List.length_append]
      rw [tryLoop_log_filter, offsetLog_no_byId]
      simpa using tryLoop_log_len env rands 20 0
  · intro i a hi hnone hsome
    rw [hdisp]
    have hres := tryLoop_first_hit env rands 20 i 0 a hi
      (by simpa using hnone) (by simpa using hsome)
    rw [hres]
  · intro hall
    have hloop := tryLoop_all_miss env rands 20 0 (fun i hi => by
      simpa using hall i hi)
    rw [hdisp, hloop]
    simp

/-- C4, witness: on a registry where every lookup misses, all 20 lookups
are issued and the call falls back to the offset method; on a registry
whose first attempt passes the quality check, that award is returned. -/
theorem c4_strategyA_budget_witness :
    getRandomGrant envMiss randsZero 0 none Status.completed =
      ((getRandomGrantByOffset envMiss 0 none Status.completed).1,
        (List.range 20).map
          (fun i => Request.byId (generateRandomAwardId (randsZero i)))
        ++ (getRandomGrantByOffset envMiss 0 none Status.completed).2)
    ∧ (getRandomGrant envGuess randsZero 0 none Status.completed).1 =
        some awardLong :=
  ⟨(c4_strategyA_budget envMiss randsZero 0 none Status.completed
      (by decide)).2.2 (fun i _ => rfl),
   (c4_strategyA_budget envGuess randsZero 0 none Status.completed
      (by decide)).2.1 0 awardLong (by decide)
      (fun j hj => absurd hj (by omega)) (by decide)⟩

/-! ## Parser claims -/

/-- A string has length zero iff it is the empty string. -/
theorem string_length_zero_iff (s : String) : s.length = 0 ↔ s = "" := by
  cases s with
  | mk data =>
    simp [String.length, String.ext_iff]

/-- C5: on the year-first input, extraction yields the year `"2019"`, the
authors `"Jane Doe and John Smith"`, the identifier
`"https://doi.org/10.1000/xyz123"` (the bare DOI normalized to a resolver
URL), and the title `"A Study of Something Important"` (the token
immediately after the identifier's position). -/
theorem c5_extract_year_first :
    parseOne "2019~Jane Doe and John Smith~10.1000/xyz123~A Study of Something Important~" =
      Publication.mk "2019" "Jane Doe and John Smith"
        "A Study of Something Important" "https://doi.org/10.1000/xyz123" "" := by
  rfl

/-- C6: on the journal-first input, the purely numeric token `"5"` after
the year is recognized as a volume number and skipped, yielding the journal
`"Nature"`, the year `"2021"`, the authors `"A. Author and B. Author"`, and
the title `"A Long And Meaningful Title About Research"`. -/
theorem c6_extract_journal_first_volume :
    parseOne "Nature~2021~5~A. Author and B. Author~A Long And Meaningful Title About Research~" =
      Publication.mk "2021" "A. Author and B. Author"
        "A Long And Meaningful Title About Research" "" "Nature" := by
  rfl

/-- C7: whenever the chosen title is shorter than 80 characters, contains
`" and "` and starts with a capitalized word, while the chosen authors
string is longer than 50 characters and does not contain `" and "`, the
swap-correction step exchanges the two fields; in particular the concrete
pair of the claim is exchanged end to end by the extraction. -/
theorem c7_swap_correction :
    (∀ title authors : String,
      title.length < 80 → strContains title " and " = true →
      startsCapitalized title = true → 50 < authors.length →
      strContains authors " and " = false →
      swapStep title authors = (authors, title))
    ∧ parseOne "2019~A Detailed Study of Protein Folding Mechanisms in Cells~~Jane Doe and John Smith~" =
        Publication.mk "2019" "Jane Doe and John Smith"
          "A Detailed Study of Protein Folding Mechanisms in Cells" "" "" := by
  constructor
  · intro t a h80 hand hcap h50 hnand
    have ht0 : ¬ t.length = 0 := by
      intro h0
      rw [(string_length_zero_iff t).mp h0] at hand
      exact absurd hand (by decide)
    have ha0 : ¬ a.length = 0 := by omega
    unfold swapStep
    have c1 : (jsTruthy t && decide (t.length < 80) &&
        strContains t " and " && startsCapitalized t) = true := by
      simp [jsTruthy, hand, hcap, h80, ht0]
    have c2 : (jsTruthy a && decide (a.length > 50) &&
        !(strContains a " and ")) = true := by
      simp [jsTruthy, hnand, h50, ha0]
    rw [if_pos c1, if_pos c2]
  · rfl

/-- C7, witness: the swap correction applied to the concrete pair of the
claim. -/
theorem c7_swap_correction_witness :
    swapStep "Jane Doe and John Smith"
        "A Detailed Study of Protein Folding Mechanisms in Cells" =
      ("A Detailed Study of Protein Folding Mechanisms in Cells",
        "Jane Doe and John Smith") :=
  c7_swap_correction.1 _ _ (by decide) (by decide) (by decide) (by decide)
    (by decide)

/-- C8: the list `parsePublications` returns is the order-preserving
subsequence of the per-string extractions passing the acceptance gate: a
member iff it is an extraction whose title is nonempty and strictly longer
than 10 characters. -/
theorem c8_gate_subsequence (l : List String) :
    List.Sublist (parsePublications l) (l.map parseOne)
    ∧ ∀ p : Publication, p ∈ parsePublications l ↔
        (p ∈ l.map parseOne ∧ p.title ≠ "" ∧ 10 < p.title.length) := by
  constructor
  · exact List.filter_sublist _
  · intro p
    have hg : (publicationGate p = true) ↔
        (p.title ≠ "" ∧ 10 < p.title.length) := by
      simp [publicationGate, jsTruthy, string_length_zero_iff]
    simp only [parsePublications, List.mem_filter]
    rw [hg]

/-- C10: a DOI-shaped token without the substring `"http"` gets
`"https://doi.org/"` prepended to the whole token unchanged, so an input
whose DOI token already contains the resolver host without a scheme yields
an identifier with a duplicated host. -/
theorem c10_doi_host_duplication :
    (∀ p : String, isDoiToken p = true → strContains p "http" = false →
      normalizeDoi p = "https://doi.org/" ++ p)
    ∧ (parseOne "doi.org/10.1000/x").doi = "https://doi.org/doi.org/10.1000/x" := by
  constructor
  · intro p _ hh
    simp [normalizeDoi, hh]
  · rfl

/-- C10, witness: the normalization applied to the host-bearing token. -/
theorem c10_doi_host_duplication_witness :
    normalizeDoi "doi.org/10.1000/x" = "https://doi.org/doi.org/10.1000/x" :=
  c10_doi_host_duplication.1 _ (by decide) (by decide)

/-! ## C9: the strict loop models never reach the crash branch -/

/-- The strict DOI scan agrees with the total one (given enough fuel). -/
theorem doiLoopS_eq_aux (parts : List String) :
    ∀ fuel i, parts.length ≤ i + fuel →
      doiLoopS parts i = some (doiLoopT parts i fuel) := by
  intro fuel
  induction fuel with
  | zero =>
    intro i hi
    rw [doiLoopS, if_neg (by omega)]
    rfl
  | succ n ih =>
    intro i hi
    rw [doiLoopS]
    by_cases h : i < parts.length
    · rw [if_pos h]
      cases hg : parts[i]? with
      | none =>
        have := List.getElem?_eq_none_iff.mp hg
        omega
      | some p =>
        simp only []
        by_cases hd : isDoiToken (jsTrim p)
        · rw [if_pos hd]
          simp [doiLoopT, hg, hd]
        · rw [if_neg hd]
          rw [ih (i + 1) (by omega)]
          simp [doiLoopT, hg, hd]
    · rw [if_neg h]
      simp [doiLoopT, List.getElem?_eq_none (by omega : parts.length ≤ i)]

/-- The strict DOI scan of the parser is total. -/
theorem doiLoopS_eq (parts : List String) :
    doiLoopS parts 0 = some (doiLoopT parts 0 parts.length) :=
  doiLoopS_eq_aux parts parts.length 0 (by omega)

/-- The strict year scan agrees with the total one (given enough fuel). -/
theorem yearLoopS_eq_aux (parts : List String) :
    ∀ fuel i, min parts.length 4 ≤ i + fuel →
      yearLoopS parts i = some (yearLoopT parts i fuel) := by
  intro fuel
  induction fuel with
  | zero =>
    intro i hi
    rw [yearLoopS, if_neg (by omega)]
    rfl
  | succ n ih =>
    intro i hi
    rw [yearLoopS]
    by_cases h : i < min parts.length 4
    · rw [if_pos h]
      cases hg : parts[i]? with
      | none =>
        have := List.getElem?_eq_none_iff.mp hg
        omega
      | some p =>
        simp only []
        by_cases hd : isFourDigit (jsTrim p)
        · rw [if_pos hd]
          simp [yearLoopT, hg, hd, show i < 4 by omega]
        · rw [if_neg hd]
          rw [ih (i + 1) (by omega)]
          simp [yearLoopT, hg, hd, show i < 4 by omega]
    · rw [if_neg h]
      by_cases h4 : i < 4
      · simp [yearLoopT, h4, List.getElem?_eq_none (by omega : parts.length ≤ i)]
      · simp [yearLoopT, h4]

/-- The strict year scan of the parser is total. -/
theorem yearLoopS_eq (parts : List String) :
    yearLoopS parts 0 = some (yearLoopT parts 0 4) :=
  yearLoopS_eq_aux parts 4 0 (by omega)

/-- The strict title scan agrees with the total one (given enough fuel). -/
theorem titleLoopS_eq_aux (parts : List String) :
    ∀ fuel i, parts.length ≤ i + fuel →
      titleLoopS parts i = some (titleLoopT parts i fuel) := by
  intro fuel
  induction fuel with
  | zero =>
    intro i hi
    rw [titleLoopS, if_neg (by omega)]
    rfl
  | succ n ih =>
    intro i hi
    rw [titleLoopS]
    by_cases h : i < parts.length
    · rw [if_pos h]
      cases hg : parts[i]? with
      | none =>
        have := List.getElem?_eq_none_iff.mp hg
        omega
      | some p =>
        simp only []
        by_cases hd : titleCandidateOk (jsTrim p)
        · rw [if_pos hd]
          simp [titleLoopT, hg, hd]
        · rw [if_neg hd]
          rw [ih (i + 1) (by omega)]
          simp [titleLoopT, hg, hd]
    · rw [if_neg h]
      simp [titleLoopT, List.getElem?_eq_none (by omega : parts.length ≤ i)]

/-- The strict title scan of the parser is total, from any start index. -/
theorem titleLoopS_eq (parts : List String) (i : Nat) :
    titleLoopS parts i = some (titleLoopT parts i parts.length) :=
  titleLoopS_eq_aux parts parts.length i (by omega)

/-- The strict journal-first field extraction is total. -/
theorem journalFirstFieldsS_eq (parts : List String)
    (yearRes : Option (Nat × String)) :
    journalFirstFieldsS parts yearRes = some (journalFirstFields parts yearRes) := by
  cases yearRes with
  | none => rfl
  | some yy => cases yy with
    | mk yi ys =>
      simp only [journalFirstFieldsS, journalFirstFields, titleLoopS_eq]
      cases hg : parts[yi + 1]? with
      | none => rfl
      | some py1 =>
        simp only []
        by_cases h1 : jsTruthy py1 = true
        · simp only [if_pos h1]
          by_cases h2 : isAllDigits (jsTrim py1) = true
          · simp only [if_pos h2]
            cases h3 : parts[yi + 2]? with
            | none => rfl
            | some py2 =>
              by_cases h4 : jsTruthy py2 = true
              · simp only [if_pos h4]
                rfl
              · simp only [if_neg h4]
                rfl
          · simp only [if_neg h2]
            rfl
        · simp only [if_neg h1]

/-- The strict extraction never reaches a crash branch and agrees with the
total extraction. -/
theorem parseOneStrict_eq (pub : String) :
    parseOneStrict pub = some (parseOne pub) := by
  unfold parseOneStrict parseOne
  simp only [doiLoopS_eq, yearLoopS_eq, journalFirstFieldsS_eq]
  by_cases hY : isFourDigit (jsTrim ((jsSplitTilde pub)[0]?.getD "")) = true
  · simp only [if_pos hY]
  · simp only [if_neg hY]

/-- The strict extraction is total across a whole citation list. -/
theorem mapStrict_parseOneStrict (l : List String) :
    mapStrict parseOneStrict l = some (l.map parseOne) := by
  induction l with
  | nil => rfl
  | cons x xs ih => simp [mapStrict, parseOneStrict_eq, ih]

/-- C9: extraction never fails — on every raw input string the
instrumented model (which returns `none` exactly where the JavaScript
would dereference an undefined array element) produces the total model's
Citation, and the instrumented list-level parser likewise returns the
post-filtered list rather than an error. -/
theorem c9_extract_never_fails :
    (∀ pub : String, parseOneStrict pub = some (parseOne pub))
    ∧ (∀ l : List String, parsePublicationsStrict l = some (parsePublications l)) := by
  refine ⟨parseOneStrict_eq, ?_⟩
  intro l
  simp [parsePublicationsStrict, parsePublications, mapStrict_parseOneStrict]
